import Mathlib

/-!
Shallow embedding of the aiconfigurator V2 operation-registry/query core
(`src/aiconfigurator/sdk/v2/`): `OperationV2` and its concrete kinds,
`CompositeOperationV2`, the `Estimator` strategies, and the `DatabaseV2`
orchestrator, together with theorems settling the specification claims.

Python floats are modelled as rationals, Python ints as naturals (all the
quantities involved are nonnegative counts and sizes), Python exceptions as
an explicit error type threaded through `Except`.
-/

namespace AIConf

/-- One value of a Python lookup-key tuple or keyword argument: a string,
a nonnegative integer, or a boolean. -/
inductive Atom where
  | s (v : String)
  | n (v : Nat)
  | b (v : Bool)
deriving DecidableEq

/-- A lookup key: the flat Python tuple produced by `get_lookup_key`. -/
abbrev Key := List Atom

/-- One record of an exact-match index: `{"latency": ..., "energy": ...}`
where the energy field may be absent (`entry.get("energy", 0.0)`). -/
structure Entry where
  latency : ℚ
  energy : Option ℚ
deriving DecidableEq

/-- The `exact_match_dict` of an operation: a key-to-record mapping. -/
abbrev Index := List (Key × Entry)

/-- Dictionary lookup in an exact-match index. -/
def lookupKey : Index → Key → Option Entry
  | [], _ => none
  | (k, e) :: rest, q => if k = q then some e else lookupKey rest q

/-- The keyword arguments of a query (`**kwargs`), in call order. -/
abbrev Params := List (String × Atom)

/-- The `kwargs.get(name)`: the value bound to a keyword, if present. -/
def lookupParam : Params → String → Option Atom
  | [], _ => none
  | (k, v) :: rest, q => if k = q then some v else lookupParam rest q

/-- The Python exceptions raised by this core. -/
inductive Err where
  | valueError (msg : String)
  | notImplementedError (msg : String)
  | keyError (name : String)
  | typeError (name : String)
  | zeroDivisionError
deriving DecidableEq

/-- The `kwargs[name]` where an integer is required: raises `KeyError` when the
keyword is absent and `TypeError` when the value is not an integer. -/
def getNatParam (p : Params) (name : String) : Except Err Nat :=
  match lookupParam p name with
  | some (.n v) => .ok v
  | some _ => .error (.typeError name)
  | none => .error (.keyError name)

/-- The `kwargs[name]` as an arbitrary tuple element: raises `KeyError` when the
keyword is absent. -/
def getAtomParam (p : Params) (name : String) : Except Err Atom :=
  match lookupParam p name with
  | some v => .ok v
  | none => .error (.keyError name)

/-- The `kwargs.get(name, default)`. -/
def getAtomParamD (p : Params) (name : String) (d : Atom) : Atom :=
  (lookupParam p name).getD d

/-- Modelled from the spec: `PerformanceResult` (file
`sdk/performance_result.py`, outside the covered sources) is the record
`{latency, energy}`; it reads as a bare numeric latency value and adds
pairwise (latency with latency, energy with energy). -/
structure PerformanceResult where
  latency : ℚ
  energy : ℚ
deriving DecidableEq

/-- Modelled from the spec: pairwise addition of `PerformanceResult`,
summing latency and energy independently. -/
def PerformanceResult.add (a b : PerformanceResult) : PerformanceResult :=
  ⟨a.latency + b.latency, a.energy + b.energy⟩

instance : Add PerformanceResult := ⟨PerformanceResult.add⟩

/-- Modelled from the spec: a quantization-mode enum member (from
`sdk/common.py`, outside the covered sources) carries its member name and a
per-element byte width (`quant_mode.value.memory`). -/
structure QuantMode where
  name : String
  memoryBytes : ℚ
deriving DecidableEq

/-- Modelled from the spec: `GEMMQuantMode.float16` has a 2-byte element
width (the spec fixes `get_weights` for float16 at N*K*2*scale). -/
def QuantMode.float16 : QuantMode := ⟨"float16", 2⟩

/-- Modelled from the spec: the database mode enum `DatabaseMode`
(SILICON, HYBRID, SOL) from `sdk/common.py`. -/
inductive DatabaseMode where
  | silicon
  | hybrid
  | sol
deriving DecidableEq

end AIConf

namespace AIConf

/-! ### Rendering of Python reprs for exception messages -/

/-- A single-quote character, as used by Python string reprs. -/
def sq : String := String.singleton (Char.ofNat 39)

/-- Python `repr` of one tuple element. -/
def reprAtom : Atom → String
  | .s v => sq ++ v ++ sq
  | .n v => toString v
  | .b true => "True"
  | .b false => "False"

/-- Comma-separated rendering of tuple elements. -/
def reprAtoms : List Atom → String
  | [] => ""
  | [a] => reprAtom a
  | a :: rest => reprAtom a ++ ", " ++ reprAtoms rest

/-- Python `repr` of a tuple (note the trailing comma of a 1-tuple). -/
def reprKey : Key → String
  | [a] => "(" ++ reprAtom a ++ ",)"
  | as => "(" ++ reprAtoms as ++ ")"

/-- Comma-separated rendering of quoted strings. -/
def reprQuotedNames : List String → String
  | [] => ""
  | [a] => sq ++ a ++ sq
  | a :: rest => sq ++ a ++ sq ++ ", " ++ reprQuotedNames rest

/-- Python `repr` of a list of strings. -/
def reprNameList (names : List String) : String :=
  "[" ++ reprQuotedNames names ++ "]"

/-- The `ValueError` message of the generic `OperationV2.query` lookup miss:
`No exact match for key {key} and no Estimator configured.` -/
def lookupMissMsg (keyRepr : String) : String :=
  "No exact match for key " ++ keyRepr ++ " and no Estimator configured."

/-- The `ValueError` message of the GEMM override lookup miss:
`No match for GEMM key {key} and no Estimator configured.` -/
def gemmLookupMissMsg (keyRepr : String) : String :=
  "No match for GEMM key " ++ keyRepr ++ " and no Estimator configured."

/-- The `NotImplementedError` message of `DatabaseV2.query` for an
unregistered name: `Operation {name} is not registered. Available: {names}`
with the name single-quoted and the known names rendered as a Python list. -/
def notRegisteredMsg (name : String) (known : List String) : String :=
  "Operation " ++ sq ++ name ++ sq ++ " is not registered. Available: "
    ++ reprNameList known

/-- The `ValueError` message of `LinearInterpolator.predict` before fit. -/
def linearNotFittedMsg : String :=
  "LinearInterpolator has not been fitted yet."

/-- The `ValueError` message of `NearestNeighbor.predict` before fit. -/
def nnNotFittedMsg : String :=
  "NearestNeighbor has not been fitted yet."

/-- Stand-in for the Python `RecursionError`: composite queries re-enter the
database with no cycle detection, so the embedding carries explicit fuel. -/
def recursionLimitMsg : String :=
  "maximum recursion depth exceeded"

end AIConf

namespace AIConf

/-! ### Estimator strategies (`sdk/v2/estimator.py`)

The raw sample table (`flat_matrix`) is a list of rows
`[param_1, ..., param_N, latency, energy]`; `none` models the Python `None`.
The scipy interpolation internals (`LinearNDInterpolator`, convex-hull
membership, `cKDTree`) are external library calls and enter the embedding as
explicit function parameters of `predict`; the fitted-state machinery and
the data actually captured at fit time are translated from the source. -/

/-- A sample-table row without its two trailing target columns
(`flat_matrix[:, :-2]`). -/
def rowPoint (r : List ℚ) : List ℚ := (r.dropLast).dropLast

/-- The latency column of a row (`flat_matrix[:, -2]`). -/
def rowLatency (r : List ℚ) : ℚ := (r.dropLast).getLastD 0

/-- The energy column of a row (`flat_matrix[:, -1]`). -/
def rowEnergy (r : List ℚ) : ℚ := r.getLastD 0

/-- State of `LinearInterpolator`: the training data captured by the four
scipy interpolants built at fit time, plus the `_fitted` flag. -/
structure LinearInterpolator where
  points : List (List ℚ)
  latencies : List ℚ
  energies : List ℚ
  fitted : Bool

/-- The `LinearInterpolator.__init__`: no interpolants, not fitted. -/
def LinearInterpolator.init : LinearInterpolator := ⟨[], [], [], false⟩

/-- The `LinearInterpolator.fit`: with a `None` or empty matrix, log and skip
(the state is unchanged and no exception is raised); otherwise capture the
parameter points and the two target columns and set `_fitted`. -/
def LinearInterpolator.fit (st : LinearInterpolator)
    (flatMatrix : Option (List (List ℚ))) : LinearInterpolator :=
  match flatMatrix with
  | none => st
  | some rows =>
    if rows.length = 0 then st
    else
      { points := rows.map rowPoint
        latencies := rows.map rowLatency
        energies := rows.map rowEnergy
        fitted := true }

/-- The `LinearInterpolator.predict`: raises `ValueError` before a successful
fit; inside the convex hull of the training points (scipy membership test
`hull`) returns the piecewise-linear interpolants (`interpVal`), otherwise
falls back to the nearest-neighbour interpolants (`nnVal`) for both targets. -/
def LinearInterpolator.predict
    (hull : List (List ℚ) → List ℚ → Bool)
    (interpVal nnVal : List (List ℚ) → List ℚ → List ℚ → ℚ)
    (st : LinearInterpolator) (args : List ℚ) : Except Err (ℚ × ℚ) :=
  if st.fitted then
    if hull st.points args then
      .ok (interpVal st.points st.latencies args, interpVal st.points st.energies args)
    else
      .ok (nnVal st.points st.latencies args, nnVal st.points st.energies args)
  else .error (.valueError linearNotFittedMsg)

/-- State of `NearestNeighbor`: the data behind the `cKDTree` and the two
target columns, plus the `_fitted` flag. -/
structure NearestNeighbor where
  points : List (List ℚ)
  latencies : List ℚ
  energies : List ℚ
  fitted : Bool

/-- The `NearestNeighbor.__init__`: empty tree, not fitted. -/
def NearestNeighbor.init : NearestNeighbor := ⟨[], [], [], false⟩

/-- The `NearestNeighbor.fit`: with a `None` or empty matrix, log and skip;
otherwise build the spatial index over the parameter points. -/
def NearestNeighbor.fit (st : NearestNeighbor)
    (flatMatrix : Option (List (List ℚ))) : NearestNeighbor :=
  match flatMatrix with
  | none => st
  | some rows =>
    if rows.length = 0 then st
    else
      { points := rows.map rowPoint
        latencies := rows.map rowLatency
        energies := rows.map rowEnergy
        fitted := true }

/-- Squared Euclidean distance between two parameter vectors. -/
def sqDist (a b : List ℚ) : ℚ :=
  ((a.zip b).map (fun q => (q.1 - q.2) * (q.1 - q.2))).sum

/-- Index of the training point nearest to `args` (first candidate wins on
ties), as returned by `cKDTree.query`. -/
def nearestIdx (pts : List (List ℚ)) (args : List ℚ) : Nat :=
  match pts with
  | [] => 0
  | p0 :: rest =>
    let step := fun (acc : Nat × ℚ × Nat) (p : List ℚ) =>
      let d := sqDist p args
      if d < acc.2.1 then (acc.2.2, d, acc.2.2 + 1) else (acc.1, acc.2.1, acc.2.2 + 1)
    (rest.foldl step (0, sqDist p0 args, 1)).1

/-- The `NearestNeighbor.predict`: raises `ValueError` before a successful fit;
otherwise returns the latency/energy of the nearest training point. -/
def NearestNeighbor.predict (st : NearestNeighbor) (args : List ℚ) :
    Except Err (ℚ × ℚ) :=
  if st.fitted then
    let idx := nearestIdx st.points args
    .ok (st.latencies.getD idx 0, st.energies.getD idx 0)
  else .error (.valueError nnNotFittedMsg)

end AIConf

namespace AIConf

/-! ### OperationV2 and its concrete kinds -/

/-- The pluggable estimation strategy as seen by an operation: `predict`
receives keyword arguments and returns `(latency, energy)` or raises. -/
abbrev Est := Params → Except Err (ℚ × ℚ)

/-- The closed set of V2 operations, one constructor per concrete class.
Every non-composite constructor carries its static configuration, its
exact-match index (loaded at construction; the current `load_data` stubs
return an empty index which tests inject into), an optional estimator and a
scale factor. The two composite constructors (`CompositeOperationV2`
subclasses) own no data and re-enter the orchestrator by name. -/
inductive OperationV2 where
  | gemm (n k : Nat) (quantMode : QuantMode) (scaleNumTokens : Nat)
      (lowPrecisionInput : Bool) (idx : Index) (est : Option Est) (sf : ℚ)
  | contextAttention (n nKv : Nat) (kvcacheQuantName fmhaQuantName : String)
      (windowSize headSize : Nat) (idx : Index) (est : Option Est) (sf : ℚ)
  | generationAttention (n nKv : Nat) (kvCacheDtypeName : String)
      (windowSize headSize : Nat) (idx : Index) (est : Option Est) (sf : ℚ)
  | contextMLA (numHeads : Nat) (kvcacheQuantName fmhaQuantName : String)
      (idx : Index) (est : Option Est) (sf : ℚ)
  | generationMLA (numHeads : Nat) (kvCacheDtypeName : String)
      (idx : Index) (est : Option Est) (sf : ℚ)
  | mlaBmm (numHeads : Nat) (quantMode : QuantMode) (ifPre : Bool)
      (idx : Index) (est : Option Est) (sf : ℚ)
  | nccl (ncclOp : String) (numElementsPerToken numGpus : Nat)
      (commQuantName : String) (idx : Index) (est : Option Est) (sf : ℚ)
  | customAllReduce (h tpSize : Nat) (idx : Index) (est : Option Est) (sf : ℚ)
  | p2p (h ppSize : Nat) (idx : Index) (est : Option Est) (sf : ℚ)
  | moe (hiddenSize interSize topk numExperts moeTpSize moeEpSize : Nat)
      (quantMode : QuantMode) (workloadDistribution : String)
      (attentionDpSize : Nat) (isContext isGated : Bool)
      (idx : Index) (est : Option Est) (sf : ℚ)
  | elementWise (dimIn dimOut scaleNumTokens : Nat)
      (idx : Index) (est : Option Est) (sf : ℚ)
  | embedding (rowSize columnSize : Nat) (idx : Index) (est : Option Est) (sf : ℚ)
  | stubComposite (subOperations : List String) (sf : ℚ)
  | moeDispatch (hiddenSize topk numExperts moeTpSize moeEpSize
      attentionDpSize : Nat) (preDispatch : Bool) (sf : ℚ)

/-- The `GemmV2`: the effective token count `kwargs["M"] // self._scale_num_tokens`
(a Python integer floor division, which raises on a zero divisor). -/
def gemmEffTokens (scaleNumTokens : Nat) (p : Params) : Except Err Nat := do
  let m ← getNatParam p "M"
  if scaleNumTokens = 0 then .error .zeroDivisionError
  else pure (m / scaleNumTokens)

/-- The `GemmV2.get_lookup_key`: `(quant_mode.name, M // scale_num_tokens, n, k)`. -/
def gemmKey (n k : Nat) (quantName : String) (scaleNumTokens : Nat)
    (p : Params) : Except Err Key := do
  let m ← gemmEffTokens scaleNumTokens p
  pure [.s quantName, .n m, .n n, .n k]

/-- The `ContextAttentionV2.get_lookup_key`. -/
def contextAttentionKey (n nKv : Nat) (kvq fmhaq : String)
    (windowSize headSize : Nat) (p : Params) : Except Err Key := do
  let b ← getAtomParam p "batch_size"
  let s ← getAtomParam p "s"
  pure [b, s, getAtomParamD p "prefix" (.n 0), .n n, .n nKv,
    .s kvq, .s fmhaq, .n windowSize, .n headSize]

/-- The `GenerationAttentionV2.get_lookup_key`. -/
def generationAttentionKey (n nKv : Nat) (kvDtype : String)
    (windowSize headSize : Nat) (p : Params) : Except Err Key := do
  let b ← getAtomParam p "batch_size"
  let s ← getAtomParam p "s"
  pure [b, s, .n n, .n nKv, .s kvDtype, .n windowSize, .n headSize]

/-- The `ContextMLAV2.get_lookup_key`. -/
def contextMLAKey (numHeads : Nat) (kvq fmhaq : String) (p : Params) :
    Except Err Key := do
  let b ← getAtomParam p "batch_size"
  let s ← getAtomParam p "s"
  pure [b, s, getAtomParamD p "prefix" (.n 0), .n numHeads, .s kvq, .s fmhaq]

/-- The `GenerationMLAV2.get_lookup_key`. -/
def generationMLAKey (numHeads : Nat) (kvDtype : String) (p : Params) :
    Except Err Key := do
  let b ← getAtomParam p "batch_size"
  let s ← getAtomParam p "s"
  pure [b, s, .n numHeads, .s kvDtype]

/-- The `MLABmmV2.get_lookup_key`. -/
def mlaBmmKey (numHeads : Nat) (quantName : String) (ifPre : Bool)
    (p : Params) : Except Err Key := do
  let b ← getAtomParam p "batch_size"
  pure [b, .n numHeads, .s quantName, .b ifPre]

/-- The `NcclV2.get_lookup_key`: message size is `x * num_elements_per_token`. -/
def ncclKey (ncclOp : String) (numElementsPerToken numGpus : Nat)
    (commQuantName : String) (p : Params) : Except Err Key := do
  let x ← getNatParam p "x"
  pure [.s commQuantName, .s ncclOp, .n numGpus, .n (x * numElementsPerToken)]

/-- The `CustomAllReduceV2.get_lookup_key`: the fixed tag is
`common.CommQuantMode.half.name`, i.e. the enum member name `"half"`. -/
def customAllReduceKey (h tpSize : Nat) (p : Params) : Except Err Key := do
  let x ← getNatParam p "x"
  pure [.s "half", .n tpSize, .n (x * h)]

/-- The `P2PV2.get_lookup_key`: `(x * h * 2,)`. -/
def p2pKey (h : Nat) (p : Params) : Except Err Key := do
  let x ← getNatParam p "x"
  pure [.n (x * h * 2)]

/-- The `quant_mode` override handling of `MoEV2.get_lookup_key`:
`quant_mode.name if hasattr(quant_mode, "name") else str(quant_mode)`,
for an override passed as a keyword argument. -/
def moeQuantStr : Atom → String
  | .s v => v
  | .n v => toString v
  | .b true => "True"
  | .b false => "False"

/-- The `MoEV2.get_lookup_key`: tokens are `x * attention_dp_size` and the
quantization mode may be overridden per call via `kwargs.get("quant_mode")`. -/
def moeKey (hiddenSize interSize topk numExperts moeTpSize moeEpSize : Nat)
    (quantMode : QuantMode) (workloadDistribution : String)
    (attentionDpSize : Nat) (isContext : Bool) (p : Params) :
    Except Err Key := do
  let x ← getNatParam p "x"
  let q := match lookupParam p "quant_mode" with
    | some a => moeQuantStr a
    | none => quantMode.name
  pure [.n (x * attentionDpSize), .n hiddenSize, .n interSize, .n topk,
    .n numExperts, .n moeTpSize, .n moeEpSize, .s q,
    .s workloadDistribution, .b isContext]

/-- The `ElementWiseV2.get_lookup_key`: fp16 read plus write bytes for
`x // scale_num_tokens` tokens. -/
def elementWiseKey (dimIn dimOut scaleNumTokens : Nat) (p : Params) :
    Except Err Key := do
  let x ← getNatParam p "x"
  if scaleNumTokens = 0 then .error .zeroDivisionError
  else
    let xs := x / scaleNumTokens
    pure [.n (xs * dimIn * 2 + xs * dimOut * 2)]

/-- The `EmbeddingV2.get_lookup_key`: device-to-device bytes
`x * column_size * 2`. -/
def embeddingKey (columnSize : Nat) (p : Params) : Except Err Key := do
  let x ← getNatParam p "x"
  pure [.n (x * columnSize * 2)]

end AIConf

namespace AIConf

/-- The shared query body of `OperationV2.query` (and of the identically
structured GEMM override apart from its message and estimator call):
exact-match lookup on the computed key, estimator fallback, `ValueError`
otherwise. A failed key computation (`KeyError` etc.) propagates. -/
def baseQuery (idx : Index) (est : Option Est) (sf : ℚ)
    (keyc : Except Err Key) (p : Params) : Except Err PerformanceResult :=
  match keyc with
  | .error e => .error e
  | .ok key =>
    match lookupKey idx key with
    | some entry => .ok ⟨entry.latency * sf, entry.energy.getD 0 * sf⟩
    | none =>
      match est with
      | some f =>
        match f p with
        | .error e => .error e
        | .ok (lat, eng) => .ok ⟨lat * sf, eng * sf⟩
      | none => .error (.valueError (lookupMissMsg (reprKey key)))

/-- The `GemmV2.query` override: same structure as the base query but with
its own miss message and an estimator call on the shape dimensions only
(`predict(M=kwargs["M"] // scale_num_tokens, N=n, K=k)`), omitting the
quantization mode that stratifies the exact-match index. -/
def gemmQuery (n k : Nat) (quantMode : QuantMode) (scaleNumTokens : Nat)
    (idx : Index) (est : Option Est) (sf : ℚ) (p : Params) :
    Except Err PerformanceResult :=
  match gemmKey n k quantMode.name scaleNumTokens p with
  | .error e => .error e
  | .ok key =>
    match lookupKey idx key with
    | some entry => .ok ⟨entry.latency * sf, entry.energy.getD 0 * sf⟩
    | none =>
      match est with
      | some f =>
        match gemmEffTokens scaleNumTokens p with
        | .error e => .error e
        | .ok m =>
          match f [("M", .n m), ("N", .n n), ("K", .n k)] with
          | .error e => .error e
          | .ok (lat, eng) => .ok ⟨lat * sf, eng * sf⟩
      | none => .error (.valueError (gemmLookupMissMsg (reprKey key)))

/-- The `DatabaseV2`: the orchestrator state — backend identifier, database
mode, system specification and the name-to-operation registry (a Python
dict: insertion-ordered, unique names). -/
structure DatabaseV2 where
  backend : String
  mode : DatabaseMode
  systemSpec : List (String × ℚ)
  operations : List (String × OperationV2)

/-- Registry lookup (`self._operations.get(name)`). -/
def lookupOp : List (String × OperationV2) → String → Option OperationV2
  | [], _ => none
  | (k, v) :: rest, q => if k = q then some v else lookupOp rest q

/-- The `DatabaseV2.registered_operations`: names in registry order. -/
def DatabaseV2.registeredOperations (db : DatabaseV2) : List String :=
  db.operations.map Prod.fst

/-- Registry update of a Python dict assignment `d[name] = op`: replaces the
value in place when the name is present, appends otherwise. -/
def dictInsert (ops : List (String × OperationV2)) (name : String)
    (op : OperationV2) : List (String × OperationV2) :=
  match ops with
  | [] => [(name, op)]
  | (k, v) :: rest =>
    if k = name then (k, op) :: rest else (k, v) :: dictInsert rest name op

/-- The `DatabaseV2.register_operation`: overwrites any previous registration
under the same name (logging the replacement). -/
def DatabaseV2.registerOperation (db : DatabaseV2) (name : String)
    (op : OperationV2) : DatabaseV2 :=
  { db with operations := dictInsert db.operations name op }

/-- The `DatabaseV2.register_operations`: bulk registration in mapping order. -/
def DatabaseV2.registerOperations (db : DatabaseV2)
    (ops : List (String × OperationV2)) : DatabaseV2 :=
  ops.foldl (fun d q => d.registerOperation q.1 q.2) db

/-- Registry removal of `dict.pop(name, None)`. -/
def dictRemove (ops : List (String × OperationV2)) (name : String) :
    List (String × OperationV2) :=
  match ops with
  | [] => []
  | (k, v) :: rest =>
    if k = name then rest else (k, v) :: dictRemove rest name

/-- The `DatabaseV2.unregister_operation`: removes and returns the operation,
or returns `None` when absent. -/
def DatabaseV2.unregisterOperation (db : DatabaseV2) (name : String) :
    Option OperationV2 × DatabaseV2 :=
  (lookupOp db.operations name,
    { db with operations := dictRemove db.operations name })

/-- The `DatabaseV2.has_operation`. -/
def DatabaseV2.hasOperation (db : DatabaseV2) (name : String) : Bool :=
  (lookupOp db.operations name).isSome

/-- The `DatabaseV2.get_operation`. -/
def DatabaseV2.getOperation (db : DatabaseV2) (name : String) :
    Option OperationV2 :=
  lookupOp db.operations name

/-- The `DatabaseV2.clear`. -/
def DatabaseV2.clear (db : DatabaseV2) : DatabaseV2 :=
  { db with operations := [] }

/-- The `OperationV2.query` for every concrete kind, with the composite
re-entry into the orchestrator made explicit. Composites call
`self._db.query(sub_name, **kwargs)` for each sub-operation; since the
source performs no cycle detection this recursion is bounded here by
`fuel`, whose exhaustion stands for the Python `RecursionError`.

* kinds without an override use the shared `baseQuery` on their key;
* `GemmV2` uses its override (`gemmQuery`);
* `CustomAllReduceV2` and `P2PV2` short-circuit to `(0, 0)` when their
  parallel degree is 1, else defer to `super().query()`;
* the summing composite (`_StubComposite` of the test-suite) starts from
  `PerformanceResult(0, 0)`, adds each sub-result pairwise, then applies
  its own scale factor to latency and energy;
* `MoEDispatchV2.query` returns `PerformanceResult(0.0, energy=0.0)`
  unconditionally. -/
def OperationV2.query (fuel : Nat) (db : DatabaseV2) (op : OperationV2)
    (p : Params) : Except Err PerformanceResult :=
  match op with
  | .gemm n k quantMode scaleNumTokens _ idx est sf =>
    gemmQuery n k quantMode scaleNumTokens idx est sf p
  | .contextAttention n nKv kvq fmhaq w hs idx est sf =>
    baseQuery idx est sf (contextAttentionKey n nKv kvq fmhaq w hs p) p
  | .generationAttention n nKv kvd w hs idx est sf =>
    baseQuery idx est sf (generationAttentionKey n nKv kvd w hs p) p
  | .contextMLA numHeads kvq fmhaq idx est sf =>
    baseQuery idx est sf (contextMLAKey numHeads kvq fmhaq p) p
  | .generationMLA numHeads kvd idx est sf =>
    baseQuery idx est sf (generationMLAKey numHeads kvd p) p
  | .mlaBmm numHeads quantMode ifPre idx est sf =>
    baseQuery idx est sf (mlaBmmKey numHeads quantMode.name ifPre p) p
  | .nccl ncclOp ne ng cq idx est sf =>
    baseQuery idx est sf (ncclKey ncclOp ne ng cq p) p
  | .customAllReduce h tpSize idx est sf =>
    if tpSize = 1 then .ok ⟨0, 0⟩
    else baseQuery idx est sf (customAllReduceKey h tpSize p) p
  | .p2p h ppSize idx est sf =>
    if ppSize = 1 then .ok ⟨0, 0⟩
    else baseQuery idx est sf (p2pKey h p) p
  | .moe hs is topk ne tp ep qm wd adp isCtx _ idx est sf =>
    baseQuery idx est sf (moeKey hs is topk ne tp ep qm wd adp isCtx p) p
  | .elementWise dimIn dimOut s idx est sf =>
    baseQuery idx est sf (elementWiseKey dimIn dimOut s p) p
  | .embedding _ columnSize idx est sf =>
    baseQuery idx est sf (embeddingKey columnSize p) p
  | .stubComposite subs sf =>
    match fuel with
    | 0 => .error (.valueError recursionLimitMsg)
    | fuel' + 1 =>
      match subs.foldlM (fun (acc : PerformanceResult) nm =>
          (match lookupOp db.operations nm with
          | none => Except.error (.notImplementedError
              (notRegisteredMsg nm (db.registeredOperations)))
          | some sub =>
            match OperationV2.query fuel' db sub p with
            | .error e => Except.error e
            | .ok r => Except.ok (acc + r) : Except Err PerformanceResult))
          (⟨0, 0⟩ : PerformanceResult) with
      | .error e => .error e
      | .ok total => .ok ⟨total.latency * sf, total.energy * sf⟩
  | .moeDispatch _ _ _ _ _ _ _ _ => .ok ⟨0, 0⟩

/-- The `DatabaseV2.query`: raises `NotImplementedError` naming the unknown
operation and listing the registered names; otherwise forwards all keyword
arguments to the registered operation unchanged. -/
def DatabaseV2.query (fuel : Nat) (db : DatabaseV2) (name : String)
    (p : Params) : Except Err PerformanceResult :=
  match lookupOp db.operations name with
  | none => .error (.notImplementedError
      (notRegisteredMsg name (db.registeredOperations)))
  | some op => OperationV2.query fuel db op p

/-- State-passing form of `DatabaseV2.query`: the method body reads
`self._operations` and delegates; it assigns no attribute, so the
post-state is the input state. -/
def DatabaseV2.queryStep (fuel : Nat) (db : DatabaseV2) (name : String)
    (p : Params) : Except Err PerformanceResult × DatabaseV2 :=
  (DatabaseV2.query fuel db name p, db)

/-- The `get_weights` per kind: the base default is `0.0`; `GemmV2` returns
`n * k * quant_mode.value.memory` times the scale factor, `EmbeddingV2`
`row_size * column_size * 2` times the scale factor, and `MoEV2` its
per-GPU expert-weight footprint (with Python integer floor divisions)
times the scale factor. -/
def OperationV2.getWeights (op : OperationV2) (_p : Params) : ℚ :=
  match op with
  | .gemm n k quantMode _ _ _ _ sf => (n * k : ℚ) * quantMode.memoryBytes * sf
  | .embedding rowSize columnSize _ _ sf => (rowSize * columnSize * 2 : ℚ) * sf
  | .moe hs is _ ne tp ep qm _ _ _ isGated _ _ sf =>
    let numGemms : ℚ := if isGated then 3 else 2
    (⌊(⌊(hs * is * ne : ℚ) * qm.memoryBytes * numGemms / (ep : ℚ)⌋ : ℚ) / (tp : ℚ)⌋ : ℚ) * sf
  | _ => 0

end AIConf

namespace AIConf

/-- The exact-match index owned by an operation (composites own none:
their `exact_match_dict` is set to `{}` at construction). -/
def OperationV2.index : OperationV2 → Index
  | .gemm _ _ _ _ _ idx _ _ => idx
  | .contextAttention _ _ _ _ _ _ idx _ _ => idx
  | .generationAttention _ _ _ _ _ idx _ _ => idx
  | .contextMLA _ _ _ idx _ _ => idx
  | .generationMLA _ _ idx _ _ => idx
  | .mlaBmm _ _ _ idx _ _ => idx
  | .nccl _ _ _ _ idx _ _ => idx
  | .customAllReduce _ _ idx _ _ => idx
  | .p2p _ _ idx _ _ => idx
  | .moe _ _ _ _ _ _ _ _ _ _ _ idx _ _ => idx
  | .elementWise _ _ _ idx _ _ => idx
  | .embedding _ _ idx _ _ => idx
  | .stubComposite _ _ => []
  | .moeDispatch _ _ _ _ _ _ _ _ => []

/-- The optional estimator of an operation (composites set `None`). -/
def OperationV2.estimator : OperationV2 → Option Est
  | .gemm _ _ _ _ _ _ est _ => est
  | .contextAttention _ _ _ _ _ _ _ est _ => est
  | .generationAttention _ _ _ _ _ _ est _ => est
  | .contextMLA _ _ _ _ est _ => est
  | .generationMLA _ _ _ est _ => est
  | .mlaBmm _ _ _ _ est _ => est
  | .nccl _ _ _ _ _ est _ => est
  | .customAllReduce _ _ _ est _ => est
  | .p2p _ _ _ est _ => est
  | .moe _ _ _ _ _ _ _ _ _ _ _ _ est _ => est
  | .elementWise _ _ _ _ est _ => est
  | .embedding _ _ _ est _ => est
  | .stubComposite _ _ => none
  | .moeDispatch _ _ _ _ _ _ _ _ => none

/-- The scale factor of an operation. -/
def OperationV2.scaleFactor : OperationV2 → ℚ
  | .gemm _ _ _ _ _ _ _ sf => sf
  | .contextAttention _ _ _ _ _ _ _ _ sf => sf
  | .generationAttention _ _ _ _ _ _ _ sf => sf
  | .contextMLA _ _ _ _ _ sf => sf
  | .generationMLA _ _ _ _ sf => sf
  | .mlaBmm _ _ _ _ _ sf => sf
  | .nccl _ _ _ _ _ _ sf => sf
  | .customAllReduce _ _ _ _ sf => sf
  | .p2p _ _ _ _ sf => sf
  | .moe _ _ _ _ _ _ _ _ _ _ _ _ _ sf => sf
  | .elementWise _ _ _ _ _ sf => sf
  | .embedding _ _ _ _ sf => sf
  | .stubComposite _ sf => sf
  | .moeDispatch _ _ _ _ _ _ _ sf => sf

/-- The `get_lookup_key` per kind (the composite base returns the empty
tuple `()`). -/
def OperationV2.lookupKeyFn : OperationV2 → Params → Except Err Key
  | .gemm n k qm s _ _ _ _, p => gemmKey n k qm.name s p
  | .contextAttention n nKv kvq fmhaq w hs _ _ _, p =>
    contextAttentionKey n nKv kvq fmhaq w hs p
  | .generationAttention n nKv kvd w hs _ _ _, p =>
    generationAttentionKey n nKv kvd w hs p
  | .contextMLA numHeads kvq fmhaq _ _ _, p => contextMLAKey numHeads kvq fmhaq p
  | .generationMLA numHeads kvd _ _ _, p => generationMLAKey numHeads kvd p
  | .mlaBmm numHeads qm ifPre _ _ _, p => mlaBmmKey numHeads qm.name ifPre p
  | .nccl ncclOp ne ng cq _ _ _, p => ncclKey ncclOp ne ng cq p
  | .customAllReduce h tp _ _ _, p => customAllReduceKey h tp p
  | .p2p h _ _ _ _, p => p2pKey h p
  | .moe hs is topk ne tp ep qm wd adp isCtx _ _ _ _, p =>
    moeKey hs is topk ne tp ep qm wd adp isCtx p
  | .elementWise dimIn dimOut s _ _ _, p => elementWiseKey dimIn dimOut s p
  | .embedding _ columnSize _ _ _, p => embeddingKey columnSize p
  | .stubComposite _ _, _ => .ok []
  | .moeDispatch _ _ _ _ _ _ _ _, _ => .ok []

/-- Whether the operation is one of the two `CompositeOperationV2` kinds. -/
def OperationV2.isComposite : OperationV2 → Bool
  | .stubComposite _ _ => true
  | .moeDispatch _ _ _ _ _ _ _ _ => true
  | _ => false

/-- Whether the query short-circuits to `(0, 0)` before any lookup:
`CustomAllReduceV2` with `tp_size == 1` or `P2PV2` with `pp_size == 1`. -/
def OperationV2.shortCircuited : OperationV2 → Bool
  | .customAllReduce _ tpSize _ _ _ => tpSize = 1
  | .p2p _ ppSize _ _ _ => ppSize = 1
  | _ => false

/-- The same operation with its estimator replaced (composites carry no
estimator and are unchanged). -/
def OperationV2.withEstimator : OperationV2 → Option Est → OperationV2
  | .gemm n k qm s lpi idx _ sf, e => .gemm n k qm s lpi idx e sf
  | .contextAttention n nKv kvq fmhaq w hs idx _ sf, e =>
    .contextAttention n nKv kvq fmhaq w hs idx e sf
  | .generationAttention n nKv kvd w hs idx _ sf, e =>
    .generationAttention n nKv kvd w hs idx e sf
  | .contextMLA numHeads kvq fmhaq idx _ sf, e => .contextMLA numHeads kvq fmhaq idx e sf
  | .generationMLA numHeads kvd idx _ sf, e => .generationMLA numHeads kvd idx e sf
  | .mlaBmm numHeads qm ifPre idx _ sf, e => .mlaBmm numHeads qm ifPre idx e sf
  | .nccl ncclOp ne ng cq idx _ sf, e => .nccl ncclOp ne ng cq idx e sf
  | .customAllReduce h tp idx _ sf, e => .customAllReduce h tp idx e sf
  | .p2p h pp idx _ sf, e => .p2p h pp idx e sf
  | .moe hs is topk ne tp ep qm wd adp isCtx ig idx _ sf, e =>
    .moe hs is topk ne tp ep qm wd adp isCtx ig idx e sf
  | .elementWise dimIn dimOut s idx _ sf, e => .elementWise dimIn dimOut s idx e sf
  | .embedding rs cs idx _ sf, e => .embedding rs cs idx e sf
  | .stubComposite subs sf, _ => .stubComposite subs sf
  | .moeDispatch a b c d f g pd sf, _ => .moeDispatch a b c d f g pd sf

/-- The empty database used to close universally quantified statements
about non-composite operations (their query ignores the orchestrator). -/
def emptyDb : DatabaseV2 := ⟨"trtllm", .silicon, [], []⟩

end AIConf

namespace AIConf

/-- The lookup-miss message actually raised per kind: `GemmV2.query` uses
its own wording, every other kind the generic `OperationV2.query` wording. -/
def OperationV2.missMsg : OperationV2 → String → String
  | .gemm _ _ _ _ _ _ _ _, r => gemmLookupMissMsg r
  | _, r => lookupMissMsg r

/-! ### Concrete instances for witnesses and counterexamples -/

/-- The lookup key of the end-to-end spec example:
`("float16", 32, 1024, 512)`. -/
def gemmExampleKey : Key := [.s "float16", .n 32, .n 1024, .n 512]

/-- The end-to-end spec example: a GEMM with n=1024, k=512, float16, and an
injected exact-match row `("float16", 32, 1024, 512) -> (0.5, 10.0)`. -/
def gemmExampleOp : OperationV2 :=
  .gemm 1024 512 .float16 1 false [(gemmExampleKey, ⟨1/2, some 10⟩)] none 1

/-- A custom all-reduce with `tp_size = 1` whose (injected) exact-match
index binds the key it would compute for `x = 1` to latency 7, energy 3. -/
def allReduceTp1Op : OperationV2 :=
  .customAllReduce 1 1 [([.s "half", .n 1, .n 1], ⟨7, some 3⟩)] none 1

/-- A point-to-point operation (`h = 2`, `pp_size = 2`) with an empty index
and no estimator: its query misses. -/
def p2pMissOp : OperationV2 := .p2p 2 2 [] none 1

/-- A sub-operation answering `(5, 25)` at `x = 1`: an NCCL allgather over
2 GPUs with one element per token and an injected exact-match row. -/
def subOpA : OperationV2 :=
  .nccl "allgather" 1 2 "half" [([.s "half", .s "allgather", .n 2, .n 1], ⟨5, some 25⟩)] none 1

/-- A sub-operation answering `(3, 15)` at `x = 1`: a custom all-reduce with
`tp_size = 2` (no short-circuit) and an injected exact-match row. -/
def subOpB : OperationV2 :=
  .customAllReduce 1 2 [([.s "half", .n 2, .n 1], ⟨3, some 15⟩)] none 1

/-- A database holding the two sub-operations under names `a` and `b`. -/
def dbAB : DatabaseV2 := ⟨"test", .silicon, [], [("a", subOpA), ("b", subOpB)]⟩

/-- A database holding the two sub-operations under the names that
`MoEDispatchV2` fixes as its sub-operation list. -/
def dbMoeSubs : DatabaseV2 :=
  ⟨"test", .silicon, [], [("nccl", subOpA), ("custom_allreduce", subOpB)]⟩

/-- A `MoEDispatchV2` instance (all parallel degrees 1, pre-dispatch). -/
def moeDispatchOp : OperationV2 := .moeDispatch 1 1 1 1 1 1 true 1

/-- The keyword arguments `x=1`. -/
def xOne : Params := [("x", .n 1)]

end AIConf

namespace AIConf

/-! ### Theorems settling the claims -/

/-- Shared helper: the base query on a successfully computed key that is
present in the exact-match index returns the stored record scaled. -/
theorem baseQuery_exact {idx : Index} {est : Option Est} {sf : ℚ}
    {keyc : Except Err Key} {k : Key} {e : Entry} {p : Params}
    (hk : keyc = .ok k) (he : lookupKey idx k = some e) :
    baseQuery idx est sf keyc p = .ok ⟨e.latency * sf, e.energy.getD 0 * sf⟩ := by
  subst hk
  simp [baseQuery, he]

/-- C1 (amended): for every non-composite operation other than the two
short-circuit configurations (custom all-reduce with `tp_size == 1`,
point-to-point with `pp_size == 1`), whenever the computed lookup key is
present in the exact-match index, `query` returns the stored latency times
the scale factor and the stored energy (0 when absent) times the scale
factor; moreover the result is the same for every estimator, so the
estimator is never consulted on this path. -/
theorem query_exactMatch_scaled_no_estimator
    (fuel : Nat) (db : DatabaseV2) (op : OperationV2) (p : Params)
    (k : Key) (e : Entry)
    (hc : op.isComposite = false)
    (hs : op.shortCircuited = false)
    (hk : op.lookupKeyFn p = .ok k)
    (he : lookupKey op.index k = some e) :
    OperationV2.query fuel db op p
      = .ok ⟨e.latency * op.scaleFactor, e.energy.getD 0 * op.scaleFactor⟩
    ∧ ∀ est2 : Option Est, OperationV2.query fuel db (op.withEstimator est2) p
      = .ok ⟨e.latency * op.scaleFactor, e.energy.getD 0 * op.scaleFactor⟩ := by
  refine ⟨?_, fun est2 => ?_⟩ <;>
    cases op <;>
      simp_all [OperationV2.query, OperationV2.withEstimator,
        OperationV2.lookupKeyFn, OperationV2.index, OperationV2.scaleFactor,
        OperationV2.isComposite, OperationV2.shortCircuited, gemmQuery,
        baseQuery]

end AIConf

namespace AIConf

/-- Witness for the exact-match theorem at the end-to-end spec example:
`query("gemm", M=32)` on the injected row returns `(0.5, 10.0)`. -/
theorem query_exactMatch_scaled_no_estimator_witness :
    gemmExampleOp.isComposite = false
  ∧ gemmExampleOp.shortCircuited = false
  ∧ gemmExampleOp.lookupKeyFn [("M", .n 32)] = .ok gemmExampleKey
  ∧ lookupKey gemmExampleOp.index gemmExampleKey = some ⟨1/2, some 10⟩
  ∧ OperationV2.query 0 emptyDb gemmExampleOp [("M", .n 32)]
      = .ok ⟨1/2 * 1, 10 * 1⟩ :=
  ⟨rfl, rfl, rfl, rfl,
    (query_exactMatch_scaled_no_estimator 0 emptyDb gemmExampleOp
      [("M", .n 32)] gemmExampleKey ⟨1/2, some 10⟩ rfl rfl rfl rfl).1⟩

/-- C1 counterexample: a custom all-reduce with `tp_size = 1` and scale
factor 1 whose computed key for `x = 1` is present in its exact-match index
with stored latency 7 and energy 3; its query returns `(0, 0)`, not the
stored record times the scale factor. -/
theorem query_exactMatch_counterexample :
    allReduceTp1Op.lookupKeyFn xOne = .ok [.s "half", .n 1, .n 1]
  ∧ lookupKey allReduceTp1Op.index [.s "half", .n 1, .n 1] = some ⟨7, some 3⟩
  ∧ allReduceTp1Op.scaleFactor = 1
  ∧ OperationV2.query 0 emptyDb allReduceTp1Op xOne = .ok ⟨0, 0⟩
  ∧ (⟨0, 0⟩ : PerformanceResult) ≠ ⟨7 * 1, 3 * 1⟩ := by
  refine ⟨rfl, rfl, rfl, rfl, by simp [PerformanceResult.mk.injEq]⟩

/-- C5: the custom all-reduce returns `(0, 0)` whenever its configured
`tp_size` equals 1, and the point-to-point operation returns `(0, 0)`
whenever its configured `pp_size` equals 1 — for every runtime parameter
set, every index content, every estimator and every scale factor. -/
theorem shortCircuit_returns_zero (fuel : Nat) (db : DatabaseV2) (h : Nat)
    (idx : Index) (est : Option Est) (sf : ℚ) (p : Params) :
    OperationV2.query fuel db (.customAllReduce h 1 idx est sf) p = .ok ⟨0, 0⟩
  ∧ OperationV2.query fuel db (.p2p h 1 idx est sf) p = .ok ⟨0, 0⟩ := by
  constructor <;> simp [OperationV2.query]

end AIConf

namespace AIConf

/-- Extending an infix on both sides preserves the infix relation. -/
theorem isInfix_extend {l m : List Char} (s t : List Char) (h : l <:+: m) :
    l <:+: s ++ m ++ t := by
  obtain ⟨u, v, rfl⟩ := h
  exact ⟨s ++ u, v ++ t, by simp⟩

/-- The key repr occurs in the generic lookup-miss message. -/
theorem reprKey_isInfix_lookupMissMsg (r : String) :
    r.data <:+: (lookupMissMsg r).data := by
  refine ⟨("No exact match for key " : String).data,
    (" and no Estimator configured." : String).data, ?_⟩
  simp [lookupMissMsg, String.data_append]

/-- The key repr occurs in the GEMM lookup-miss message. -/
theorem reprKey_isInfix_gemmMissMsg (r : String) :
    r.data <:+: (gemmLookupMissMsg r).data := by
  refine ⟨("No match for GEMM key " : String).data,
    (" and no Estimator configured." : String).data, ?_⟩
  simp [gemmLookupMissMsg, String.data_append]

/-- The operation kind token occurs in the GEMM lookup-miss message. -/
theorem gemmKind_isInfix_gemmMissMsg (r : String) :
    ("GEMM" : String).data <:+: (gemmLookupMissMsg r).data := by
  refine ⟨("No match for " : String).data,
    (" key " ++ r ++ " and no Estimator configured." : String).data, ?_⟩
  have hsplit : ("No match for GEMM key " : String)
      = "No match for " ++ "GEMM" ++ " key " := rfl
  simp [gemmLookupMissMsg, hsplit, String.data_append]

/-- Every member of a name list occurs in its quoted rendering. -/
theorem mem_isInfix_reprQuotedNames {nm : String} :
    ∀ {names : List String}, nm ∈ names →
      nm.data <:+: (reprQuotedNames names).data
  | [], h => absurd h (List.not_mem_nil nm)
  | [a], h => by
    rcases List.mem_singleton.mp h with rfl
    exact ⟨sq.data, sq.data, by simp [reprQuotedNames, String.data_append]⟩
  | a :: b :: rest, h => by
    rcases List.mem_cons.mp h with rfl | h
    · exact ⟨sq.data, (sq ++ ", " ++ reprQuotedNames (b :: rest)).data,
        by simp [reprQuotedNames, String.data_append]⟩
    · obtain ⟨u, v, huv⟩ := mem_isInfix_reprQuotedNames h
      refine ⟨(sq ++ a ++ sq ++ ", ").data ++ u, v, ?_⟩
      simp [reprQuotedNames, String.data_append, ← huv]

/-- Every registered name occurs verbatim in the unregistered-operation
message, which renders the full list of known names. -/
theorem mem_isInfix_notRegisteredMsg {nm name : String} {known : List String}
    (h : nm ∈ known) : nm.data <:+: (notRegisteredMsg name known).data := by
  obtain ⟨u, v, huv⟩ := mem_isInfix_reprQuotedNames h
  refine ⟨("Operation " ++ sq ++ name ++ sq
      ++ " is not registered. Available: " ++ "[").data ++ u,
    v ++ ("]" : String).data, ?_⟩
  simp [notRegisteredMsg, reprNameList, String.data_append, ← huv]

/-- Overwriting an existing dict entry twice under the same name is the
same as writing the final value once. -/
theorem dictInsert_dictInsert_same (l : List (String × OperationV2))
    (name : String) (a b : OperationV2) :
    dictInsert (dictInsert l name a) name b = dictInsert l name b := by
  induction l with
  | nil => simp [dictInsert]
  | cons hd tl ih =>
    by_cases hk : hd.1 = name
    · simp [dictInsert, hk]
    · simp [dictInsert, hk, ih]

/-- Looking up a name just written returns the written operation. -/
theorem lookupOp_dictInsert_self (l : List (String × OperationV2))
    (name : String) (op : OperationV2) :
    lookupOp (dictInsert l name op) name = some op := by
  induction l with
  | nil => simp [dictInsert, lookupOp]
  | cons hd tl ih =>
    by_cases hk : hd.1 = name
    · simp [dictInsert, hk, lookupOp]
    · simp [dictInsert, hk, lookupOp, ih]

/-- C3 (amended): for every non-composite, non-short-circuited operation
constructed without an estimator, a computed key absent from the
exact-match index makes `query` raise `ValueError` (LookupMiss) whose
message names the computed key; the GEMM override message additionally
names the GEMM kind (the generic message of the other kinds names no kind). -/
theorem query_lookupMiss_message
    (fuel : Nat) (db : DatabaseV2) (op : OperationV2) (p : Params) (k : Key)
    (hc : op.isComposite = false)
    (hs : op.shortCircuited = false)
    (hest : op.estimator = none)
    (hk : op.lookupKeyFn p = .ok k)
    (hmiss : lookupKey op.index k = none) :
    OperationV2.query fuel db op p
      = .error (.valueError (op.missMsg (reprKey k)))
  ∧ (reprKey k).data <:+: (op.missMsg (reprKey k)).data
  ∧ ∀ r : String, ("GEMM" : String).data <:+: (gemmLookupMissMsg r).data := by
  refine ⟨?_, ?_, fun r => gemmKind_isInfix_gemmMissMsg r⟩
  · cases op <;>
      simp_all [OperationV2.query, OperationV2.missMsg, OperationV2.lookupKeyFn,
        OperationV2.index, OperationV2.estimator, OperationV2.isComposite,
        OperationV2.shortCircuited, gemmQuery, baseQuery]
  · cases op <;>
      first
        | exact reprKey_isInfix_gemmMissMsg _
        | exact reprKey_isInfix_lookupMissMsg _

/-- Witness for the lookup-miss theorem: a point-to-point operation with
`pp_size = 2`, empty index and no estimator, queried at `x = 1`. -/
theorem query_lookupMiss_message_witness :
    p2pMissOp.estimator = none
  ∧ OperationV2.query 0 emptyDb p2pMissOp xOne
      = .error (.valueError (p2pMissOp.missMsg (reprKey [.n 4])))
  ∧ (reprKey [.n 4]).data <:+: (p2pMissOp.missMsg (reprKey [.n 4])).data := by
  have h := query_lookupMiss_message 0 emptyDb p2pMissOp xOne [.n 4]
    rfl rfl rfl rfl rfl
  exact ⟨rfl, h.1, h.2.1⟩

/-- C3 counterexample: the claim requires the miss message to name the
operation kind; the point-to-point operation raises the generic message,
which contains the computed key but no form of its kind name. -/
theorem query_lookupMiss_counterexample :
    OperationV2.query 0 emptyDb p2pMissOp xOne
      = .error (.valueError (lookupMissMsg (reprKey [.n 4])))
  ∧ ¬ (("P2P" : String).data <:+: (lookupMissMsg (reprKey [.n 4])).data)
  ∧ ¬ (("p2p" : String).data <:+: (lookupMissMsg (reprKey [.n 4])).data)
  ∧ ¬ (("point" : String).data <:+: (lookupMissMsg (reprKey [.n 4])).data) := by
  exact ⟨rfl, by decide, by decide, by decide⟩

/-- C4: querying a name absent from the registry raises
`NotImplementedError` whose message lists every currently registered name;
a registered name is routed to its operation with no routing-layer failure. -/
theorem dbQuery_unregistered
    (fuel : Nat) (db : DatabaseV2) (name : String) (p : Params)
    (h : lookupOp db.operations name = none) :
    DatabaseV2.query fuel db name p
      = .error (.notImplementedError
          (notRegisteredMsg name db.registeredOperations))
  ∧ (∀ nm, nm ∈ db.registeredOperations →
      nm.data <:+: (notRegisteredMsg name db.registeredOperations).data)
  ∧ (∀ nm op, lookupOp db.operations nm = some op →
      DatabaseV2.query fuel db nm p = OperationV2.query fuel db op p) := by
  refine ⟨by simp [DatabaseV2.query, h], fun nm hm => ?_,
    fun nm op hop => by simp [DatabaseV2.query, hop]⟩
  exact mem_isInfix_notRegisteredMsg hm

/-- Witness: querying the unknown name `zz` against the two-operation
database raises the listing error, and the registered name `a` routes. -/
theorem dbQuery_unregistered_witness :
    lookupOp dbAB.operations "zz" = none
  ∧ DatabaseV2.query 0 dbAB "zz" xOne
      = .error (.notImplementedError (notRegisteredMsg "zz" ["a", "b"]))
  ∧ DatabaseV2.query 1 dbAB "a" xOne = OperationV2.query 1 dbAB subOpA xOne := by
  have h := dbQuery_unregistered 0 dbAB "zz" xOne rfl
  exact ⟨rfl, h.1, (dbQuery_unregistered 1 dbAB "zz" xOne rfl).2.2 "a" subOpA rfl⟩

/-- C9: registering under an already-bound name replaces the binding
entirely — re-registering is the same registry as registering the newest
operation once, lookup observes only the newest operation, and queries
route to it. -/
theorem register_last_wins (db : DatabaseV2) (name : String)
    (op1 op2 : OperationV2) :
    (db.registerOperation name op1).registerOperation name op2
      = db.registerOperation name op2
  ∧ (db.registerOperation name op2).getOperation name = some op2
  ∧ ∀ fuel p, DatabaseV2.query fuel (db.registerOperation name op2) name p
      = OperationV2.query fuel (db.registerOperation name op2) op2 p := by
  refine ⟨?_, ?_, fun fuel p => ?_⟩
  · simp [DatabaseV2.registerOperation, dictInsert_dictInsert_same]
  · simp [DatabaseV2.getOperation, DatabaseV2.registerOperation,
      lookupOp_dictInsert_self]
  · simp [DatabaseV2.query, DatabaseV2.registerOperation,
      lookupOp_dictInsert_self]

/-- C10: `DatabaseV2.query` on a registered name returns exactly the
own query result of the registered operation on the same parameters (no extra
scaling or transformation), and the database state — backend, mode, system
spec and registry — is unchanged by the call. -/
theorem dbQuery_delegates (fuel : Nat) (db : DatabaseV2) (name : String)
    (op : OperationV2) (p : Params)
    (h : db.getOperation name = some op) :
    DatabaseV2.query fuel db name p = OperationV2.query fuel db op p
  ∧ DatabaseV2.queryStep fuel db name p = (OperationV2.query fuel db op p, db) := by
  simp only [DatabaseV2.getOperation] at h
  constructor <;> simp [DatabaseV2.query, DatabaseV2.queryStep, h]

/-- Witness: the database with sub-operations `a`, `b` delegates the query
of `a` to the registered operation, preserving the state. -/
theorem dbQuery_delegates_witness :
    dbAB.getOperation "a" = some subOpA
  ∧ DatabaseV2.query 1 dbAB "a" xOne = OperationV2.query 1 dbAB subOpA xOne
  ∧ DatabaseV2.queryStep 1 dbAB "a" xOne
      = (OperationV2.query 1 dbAB subOpA xOne, dbAB) := by
  have h := dbQuery_delegates 1 dbAB "a" subOpA xOne rfl
  exact ⟨rfl, h.1, h.2⟩

/-- C8: `get_weights` defaults to 0 for every kind that does not override
it; the GEMM kind returns `n * k * bytes_per_element(quant_mode)` times the
scale factor; in particular N=1024, K=512, float16 (2 bytes), scale 2.0
gives 2097152. -/
theorem getWeights_default_and_gemm :
    (∀ a b c d (idx : Index) (est : Option Est) (sf : ℚ) (p : Params),
      OperationV2.getWeights (.nccl a b c d idx est sf) p = 0)
  ∧ (∀ n nKv kvq fq w hsz (idx : Index) (est : Option Est) (sf : ℚ) p,
      OperationV2.getWeights (.contextAttention n nKv kvq fq w hsz idx est sf) p = 0)
  ∧ (∀ n nKv kvd w hsz (idx : Index) (est : Option Est) (sf : ℚ) p,
      OperationV2.getWeights (.generationAttention n nKv kvd w hsz idx est sf) p = 0)
  ∧ (∀ nh kvq fq (idx : Index) (est : Option Est) (sf : ℚ) p,
      OperationV2.getWeights (.contextMLA nh kvq fq idx est sf) p = 0)
  ∧ (∀ nh kvd (idx : Index) (est : Option Est) (sf : ℚ) p,
      OperationV2.getWeights (.generationMLA nh kvd idx est sf) p = 0)
  ∧ (∀ nh qm ip (idx : Index) (est : Option Est) (sf : ℚ) p,
      OperationV2.getWeights (.mlaBmm nh qm ip idx est sf) p = 0)
  ∧ (∀ h tp (idx : Index) (est : Option Est) (sf : ℚ) p,
      OperationV2.getWeights (.customAllReduce h tp idx est sf) p = 0)
  ∧ (∀ h pp (idx : Index) (est : Option Est) (sf : ℚ) p,
      OperationV2.getWeights (.p2p h pp idx est sf) p = 0)
  ∧ (∀ di dOut s (idx : Index) (est : Option Est) (sf : ℚ) p,
      OperationV2.getWeights (.elementWise di dOut s idx est sf) p = 0)
  ∧ (∀ subs (sf : ℚ) p,
      OperationV2.getWeights (.stubComposite subs sf) p = 0)
  ∧ (∀ a b c d e f pd (sf : ℚ) p,
      OperationV2.getWeights (.moeDispatch a b c d e f pd sf) p = 0)
  ∧ (∀ n k qm s lpi (idx : Index) (est : Option Est) (sf : ℚ) p,
      OperationV2.getWeights (.gemm n k qm s lpi idx est sf) p
        = (n * k : ℚ) * qm.memoryBytes * sf)
  ∧ OperationV2.getWeights (.gemm 1024 512 .float16 1 false [] none 2) []
      = 2097152 := by
  refine ⟨?_, ?_, ?_, ?_, ?_, ?_, ?_, ?_, ?_, ?_, ?_, ?_, ?_⟩ <;>
    first
      | (intros; simp [OperationV2.getWeights]; done)
      | norm_num [OperationV2.getWeights, QuantMode.float16]

end AIConf


namespace AIConf

/-- Pairwise addition of performance results, unfolded. -/
theorem PerformanceResult.add_def (a b : PerformanceResult) :
    a + b = ⟨a.latency + b.latency, a.energy + b.energy⟩ := rfl

/-- C2 (amended): the summing composite issues one orchestrator sub-query
per sub-operation name, adds the sub-results pairwise (latency with
latency, energy with energy) starting from `(0, 0)`, and multiplies the
combined total by its own scale factor — for two sub-operations and for a
single one. -/
theorem stubComposite_aggregation
    (fuel : Nat) (db : DatabaseV2) (na nb : String) (sf : ℚ) (p : Params)
    (r1 r2 : PerformanceResult)
    (h1 : DatabaseV2.query fuel db na p = .ok r1)
    (h2 : DatabaseV2.query fuel db nb p = .ok r2) :
    OperationV2.query (fuel + 1) db (.stubComposite [na, nb] sf) p
      = .ok ⟨(r1.latency + r2.latency) * sf, (r1.energy + r2.energy) * sf⟩
  ∧ OperationV2.query (fuel + 1) db (.stubComposite [na] sf) p
      = .ok ⟨r1.latency * sf, r1.energy * sf⟩ := by
  simp only [DatabaseV2.query] at h1 h2
  rcases ha : lookupOp db.operations na with _ | opa <;> rw [ha] at h1
  · simp at h1
  rcases hb : lookupOp db.operations nb with _ | opb <;> rw [hb] at h2
  · simp at h2
  simp only [] at h1 h2
  constructor <;>
    simp [OperationV2.query, List.foldlM_cons, List.foldlM_nil,
      ha, hb, h1, h2, PerformanceResult.add_def, bind, Except.bind,
      pure, Except.pure]

end AIConf

namespace AIConf

/-- Witness at the test-suite database: sub-results `(5, 25)` and `(3, 15)`
with scale factor 1 aggregate to `(8, 40)`; the single sub-result `(5, 25)`
with scale factor 3 gives `(15, 75)`. -/
theorem stubComposite_aggregation_witness :
    DatabaseV2.query 1 dbAB "a" xOne = .ok ⟨5, 25⟩
  ∧ DatabaseV2.query 1 dbAB "b" xOne = .ok ⟨3, 15⟩
  ∧ OperationV2.query 2 dbAB (.stubComposite ["a", "b"] 1) xOne = .ok ⟨8, 40⟩
  ∧ OperationV2.query 2 dbAB (.stubComposite ["a"] 3) xOne = .ok ⟨15, 75⟩ := by
  have qa : DatabaseV2.query 1 dbAB "a" xOne = .ok ⟨5 * 1, 25 * 1⟩ := rfl
  have qb : DatabaseV2.query 1 dbAB "b" xOne = .ok ⟨3 * 1, 15 * 1⟩ := rfl
  have qa' : DatabaseV2.query 1 dbAB "a" xOne = .ok ⟨5, 25⟩ := by
    simpa using qa
  have qb' : DatabaseV2.query 1 dbAB "b" xOne = .ok ⟨3, 15⟩ := by
    simpa using qb
  have hone := stubComposite_aggregation 1 dbAB "a" "b" 1 xOne
    ⟨5, 25⟩ ⟨3, 15⟩ qa' qb'
  have hthree := stubComposite_aggregation 1 dbAB "a" "b" 3 xOne
    ⟨5, 25⟩ ⟨3, 15⟩ qa' qb'
  refine ⟨qa', qb', ?_, ?_⟩
  · have h := hone.1
    norm_num at h
    exact h
  · have h := hthree.2
    norm_num at h
    exact h

/-- C2 counterexample: (i) the single sub-result `(5, 25)` under scale
factor 3 yields `(15, 75)`, not the `(30, 150)` the claim states (the
composite scales the summed total once); (ii) the concrete composite
`MoEDispatchV2` does not decompose at all — with both of its fixed
sub-operation names registered and answering `(5, 25)` and `(3, 15)`, its
query still returns `(0, 0)` rather than the summed-and-scaled `(8, 40)`. -/
theorem composite_claim_counterexample :
    OperationV2.query 2 dbAB (.stubComposite ["a"] 3) xOne = .ok ⟨15, 75⟩
  ∧ (⟨15, 75⟩ : PerformanceResult) ≠ ⟨30, 150⟩
  ∧ DatabaseV2.query 1 dbMoeSubs "nccl" xOne = .ok ⟨5, 25⟩
  ∧ DatabaseV2.query 1 dbMoeSubs "custom_allreduce" xOne = .ok ⟨3, 15⟩
  ∧ OperationV2.query 2 dbMoeSubs moeDispatchOp xOne = .ok ⟨0, 0⟩
  ∧ (⟨0, 0⟩ : PerformanceResult) ≠ ⟨8, 40⟩ := by
  have qn : DatabaseV2.query 1 dbMoeSubs "nccl" xOne = .ok ⟨5 * 1, 25 * 1⟩ := rfl
  have qc : DatabaseV2.query 1 dbMoeSubs "custom_allreduce" xOne
      = .ok ⟨3 * 1, 15 * 1⟩ := rfl
  have qs : OperationV2.query 2 dbAB (.stubComposite ["a"] 3) xOne
      = .ok ⟨(0 + 5 * 1) * 3, (0 + 25 * 1) * 3⟩ := rfl
  refine ⟨by norm_num at qs; exact qs,
    by simp [PerformanceResult.mk.injEq],
    by simpa using qn, by simpa using qc, rfl,
    by simp [PerformanceResult.mk.injEq]⟩

end AIConf

namespace AIConf

/-- C6: `GemmV2.get_lookup_key` returns the 4-tuple
`(quant_mode, M // scale_num_tokens, N, K)`; on an exact-match miss with an
estimator configured, `query` calls `predict` with exactly the keyword
arguments `M = M // scale_num_tokens`, `N`, `K` — no quantization mode — so
on the estimator path the result does not depend on the quantization mode
that stratifies the exact-match index. -/
theorem gemm_key_and_estimator_path
    (fuel : Nat) (db : DatabaseV2) (n k : Nat) (qm : QuantMode)
    (s : Nat) (lpi : Bool) (idx : Index) (f : Est) (sf : ℚ)
    (p : Params) (m : Nat)
    (hm : lookupParam p "M" = some (.n m))
    (hs : s ≠ 0) :
    OperationV2.lookupKeyFn (.gemm n k qm s lpi idx (some f) sf) p
      = .ok [.s qm.name, .n (m / s), .n n, .n k]
  ∧ (lookupKey idx [.s qm.name, .n (m / s), .n n, .n k] = none →
      OperationV2.query fuel db (.gemm n k qm s lpi idx (some f) sf) p
        = match f [("M", .n (m / s)), ("N", .n n), ("K", .n k)] with
          | .error e => .error e
          | .ok (lat, eng) => .ok ⟨lat * sf, eng * sf⟩)
  ∧ (∀ qm2 : QuantMode,
      lookupKey idx [.s qm.name, .n (m / s), .n n, .n k] = none →
      lookupKey idx [.s qm2.name, .n (m / s), .n n, .n k] = none →
      OperationV2.query fuel db (.gemm n k qm s lpi idx (some f) sf) p
        = OperationV2.query fuel db (.gemm n k qm2 s lpi idx (some f) sf) p) := by
  refine ⟨?_, fun hmiss => ?_, fun qm2 hm1 hm2 => ?_⟩
  · simp [OperationV2.lookupKeyFn, gemmKey, gemmEffTokens, getNatParam, hm, hs]
  · simp only [OperationV2.query, gemmQuery, gemmKey, gemmEffTokens,
      getNatParam, hm, hs]
    simp [hmiss, hs]
  · simp only [OperationV2.query, gemmQuery, gemmKey, gemmEffTokens,
      getNatParam, hm, hs]
    simp [hm1, hm2, hs]

/-- Witness: a GEMM with scale_num_tokens 2 queried at M=33 computes the
key `("float16", 16, 1024, 512)`; on the miss against its empty index the
constant estimator is consulted with the shape dimensions only. -/
theorem gemm_key_and_estimator_path_witness :
    lookupParam [("M", Atom.n 33)] "M" = some (.n 33)
  ∧ (2 : Nat) ≠ 0
  ∧ OperationV2.lookupKeyFn
      (.gemm 1024 512 .float16 2 false [] (some fun _ => .ok (7, 9)) 1)
      [("M", .n 33)]
      = .ok [.s "float16", .n 16, .n 1024, .n 512]
  ∧ OperationV2.query 0 emptyDb
      (.gemm 1024 512 .float16 2 false [] (some fun _ => .ok (7, 9)) 1)
      [("M", .n 33)]
      = .ok ⟨7 * 1, 9 * 1⟩ := by
  have h := gemm_key_and_estimator_path 0 emptyDb 1024 512 .float16 2 false
    [] (fun _ => .ok (7, 9)) 1 [("M", .n 33)] 33 rfl (by decide)
  exact ⟨rfl, by decide, h.1, h.2.1 rfl⟩

/-- C7: for both estimator strategies, fitting with an absent or empty
sample table leaves the state (in particular the fitted flag) unchanged and
raises nothing; `predict` before a successful fit raises the NotFitted
`ValueError`; after fitting non-empty data the fitted flag is set and
`predict` never raises NotFitted. -/
theorem estimator_fit_and_notFitted :
    (∀ st : LinearInterpolator, st.fit none = st ∧ st.fit (some []) = st)
  ∧ (∀ st : LinearInterpolator, st.fitted = false →
      ∀ hull iv nv args,
        st.predict hull iv nv args = .error (.valueError linearNotFittedMsg))
  ∧ (∀ (st : LinearInterpolator) (rows : List (List ℚ)), rows ≠ [] →
      (st.fit (some rows)).fitted = true
        ∧ ∀ hull iv nv args, (st.fit (some rows)).predict hull iv nv args
            ≠ .error (.valueError linearNotFittedMsg))
  ∧ (∀ st : NearestNeighbor, st.fit none = st ∧ st.fit (some []) = st)
  ∧ (∀ st : NearestNeighbor, st.fitted = false →
      ∀ args, st.predict args = .error (.valueError nnNotFittedMsg))
  ∧ (∀ (st : NearestNeighbor) (rows : List (List ℚ)), rows ≠ [] →
      (st.fit (some rows)).fitted = true
        ∧ ∀ args, (st.fit (some rows)).predict args
            ≠ .error (.valueError nnNotFittedMsg)) := by
  refine ⟨fun st => ⟨rfl, by simp [LinearInterpolator.fit]⟩,
    fun st hf hull iv nv args => by simp [LinearInterpolator.predict, hf],
    fun st rows hr => ?_,
    fun st => ⟨rfl, by simp [NearestNeighbor.fit]⟩,
    fun st hf args => by simp [NearestNeighbor.predict, hf],
    fun st rows hr => ?_⟩
  · have hlen : rows.length ≠ 0 := by simpa using hr
    refine ⟨by simp [LinearInterpolator.fit, hlen], fun hull iv nv args => ?_⟩
    simp only [LinearInterpolator.fit]
    rw [if_neg hlen]
    simp only [LinearInterpolator.predict, if_true]
    split <;> simp
  · have hlen : rows.length ≠ 0 := by simpa using hr
    refine ⟨by simp [NearestNeighbor.fit, hlen], fun args => ?_⟩
    simp [NearestNeighbor.fit, hlen, NearestNeighbor.predict]

/-- Witness: one non-empty row fits both estimators; the fresh estimators
raise the NotFitted errors before fit. -/
theorem estimator_fit_and_notFitted_witness :
    ([[(1 : ℚ), 2, 3]] ≠ ([] : List (List ℚ)))
  ∧ (LinearInterpolator.init.fit (some [[1, 2, 3]])).fitted = true
  ∧ (NearestNeighbor.init.fit (some [[1, 2, 3]])).fitted = true
  ∧ LinearInterpolator.init.predict (fun _ _ => true) (fun _ _ _ => 0)
      (fun _ _ _ => 0) [1] = .error (.valueError linearNotFittedMsg)
  ∧ NearestNeighbor.init.predict [1] = .error (.valueError nnNotFittedMsg) := by
  have h := estimator_fit_and_notFitted
  refine ⟨by simp, ?_, ?_, ?_, ?_⟩
  · exact (h.2.2.1 LinearInterpolator.init [[1, 2, 3]] (by simp)).1
  · exact (h.2.2.2.2.2 NearestNeighbor.init [[1, 2, 3]] (by simp)).1
  · exact h.2.1 LinearInterpolator.init rfl _ _ _ _
  · exact h.2.2.2.2.1 NearestNeighbor.init rfl _

end AIConf
